import Mathlib

/-!
Verification development for the face-film-finder backend
(`src/backend/app.py`), a Flask service that detects an emotion in a face
image and (per the design document) recommends movies for that emotion.

Shallow embedding conventions:
* Pixel intensities are natural numbers (uint8 values); once `astype
  ('float32')` is applied the values live in `ℚ` (exact rationals stand in
  for the float arithmetic, which here is only division/subtraction/
  multiplication by constants and comparisons).
* External collaborators (the OpenCV cascade detector `detectMultiScale`,
  `cv2.resize`, and the Keras model `predict`) are fields of an environment
  record: the pipeline is verified for every behaviour of those
  collaborators.
* `np.argmax` is embedded by its documented semantics: the index of the
  first occurrence of the maximum value (and an error on an empty array);
  that characterisation is proved below (`argmaxAux_spec`).
* Fallible Python code (caught exceptions, `None` returns) becomes
  `Except`/`Option`.
-/

namespace FaceFilm

/-- A grayscale raster: rows of uint8 intensities (`gray` in app.py). -/
abbrev Raster := List (List ℕ)

/-- A colour raster as produced by `cv2.imdecode(..., IMREAD_COLOR)`:
rows of BGR triples. -/
abbrev ColorRaster := List (List (ℕ × ℕ × ℕ))

/-- A numpy ndarray of rationals: a shape together with the flattened
data, enough to track `np.expand_dims` and elementwise arithmetic. -/
structure NDArray where
  shape : List ℕ
  data : List ℚ
deriving DecidableEq

/-- An axis-aligned face rectangle `(x, y, w, h)` as returned by
`detectMultiScale` (app.py line 109 unpacks `x, y, w, h = faces[0]`). -/
structure FaceRegion where
  x : ℕ
  y : ℕ
  w : ℕ
  h : ℕ
deriving DecidableEq

/-- The keyword arguments given to `detectMultiScale` at app.py line 100:
`scaleFactor=1.1, minNeighbors=5, minSize=(30, 30)`. -/
structure DetectParams where
  scaleFactor : ℚ
  minNeighbors : ℕ
  minSize : ℕ × ℕ
deriving DecidableEq

/-- The success payload of both emotion endpoints (app.py lines 142-145):
`{'dominantEmotion': ..., 'emotions': ...}`. The Python dict of scores is
an insertion-ordered association list. -/
structure EmotionResponse where
  dominantEmotion : String
  emotions : List (String × ℚ)
deriving DecidableEq

/-- The fixed 7-label list, app.py line 22. -/
def EMOTIONS : List String :=
  ["Angry", "Disgust", "Fear", "Happy", "Sad", "Surprise", "Neutral"]

/-- `preprocess_input` (app.py lines 24-31): `x = x / 255.0`, and when
`v2` also `x = x - 0.5; x = x * 2.0`, elementwise over the array.  The
Python default is `v2=True`; every call site in app.py uses that default,
which the embedding passes explicitly. `astype('float32')` is the
ℕ → ℚ coercion already performed by `ndOfGray`. -/
def preprocess_input (x : NDArray) (v2 : Bool) : NDArray :=
  let d := x.data.map (fun p => p / 255)
  let d := if v2 then (d.map (fun p => p - 1/2)).map (fun p => p * 2) else d
  ⟨x.shape, d⟩

/-- `np.expand_dims(a, axis=0)`: prepend a length-1 axis. -/
def expandDims0 (x : NDArray) : NDArray := ⟨1 :: x.shape, x.data⟩

/-- `np.expand_dims(a, axis=-1)`: append a length-1 axis. -/
def expandDimsLast (x : NDArray) : NDArray := ⟨x.shape ++ [1], x.data⟩

/-- View a grayscale raster as a (rows × cols) ndarray of floats. -/
def ndOfGray (g : Raster) : NDArray :=
  ⟨[g.length, (g.headD []).length], (g.map (fun row => row.map (fun p => (p : ℚ)))).flatten⟩

/-- The numpy slice `gray[y:y+h, x:x+w]` (app.py line 110): python slice
semantics, i.e. drop-then-take with clamping at the ends. -/
def cropRegion (gray : Raster) (f : FaceRegion) : Raster :=
  ((gray.drop f.y).take f.h).map (fun row => (row.drop f.x).take f.w)

/-- First-maximum search underlying `np.argmax`: given a head element and
the remaining list, return `(index, value)` of the first occurrence of the
maximum of the whole list. -/
def argmaxAux : ℚ → List ℚ → ℕ × ℚ
  | a, [] => (0, a)
  | a, b :: rest =>
    let p := argmaxAux b rest
    if a < p.2 then (p.1 + 1, p.2) else (0, a)

/-- `np.argmax` on a 1-D array: `none` on an empty array (numpy raises
`ValueError` there), otherwise the index of the first occurrence of the
maximum ("In case of multiple occurrences of the maximum values, the
indices corresponding to the first occurrence are returned"). -/
def npArgmax : List ℚ → Option ℕ
  | [] => none
  | a :: rest => some (argmaxAux a rest).1

/-- The classifier-adapter step shared verbatim by both branches of both
handlers (app.py lines 121-126, 134-139, 198-203, 211-216): given the
model output vector, `max_index = int(np.argmax(scores))`,
`dominant = EMOTIONS[max_index]` (an `IndexError`, caught by the handler,
when the index is out of range), and the score dict built by
`zip(EMOTIONS, scores)` — Python `zip` truncates at the shorter sequence,
so there is no length assertion anywhere in this step. -/
def classifyStep (v : List ℚ) : Except String EmotionResponse :=
  match npArgmax v with
  | none => Except.error "attempt to get argmax of an empty sequence"
  | some max_index =>
    match EMOTIONS.get? max_index with
    | none => Except.error "list index out of range"
    | some dominant_emotion => Except.ok ⟨dominant_emotion, EMOTIONS.zip v⟩

/-- The external collaborators of the inference pipeline.  `detect` is
`face_detection.detectMultiScale` (takes the raster and the keyword
arguments), `resize` is `cv2.resize` with a target width and height, and
`predict` is `emotion_model.predict(face_input)[0]`. -/
structure PipelineEnv where
  detect : Raster → DetectParams → List FaceRegion
  resize : Raster → ℕ → ℕ → Raster
  predict : NDArray → List ℚ

/-- The post-grayscale body of the `/api/detect-emotion` handler
(app.py lines 100-147): detect faces with `scaleFactor=1.1,
minNeighbors=5, minSize=(30, 30)`; if at least one face, crop
`faces[0]`, resize to 48×48, `expand_dims` twice, `preprocess_input`
(default `v2=True`), predict and take the arg-max label; if no face,
the same on the entire grayscale raster.  (The initial
`dominant_emotion = "Neutral"` / all-zero dict at lines 103-104 are
overwritten on every path and never escape.) -/
def detectEmotionCore (env : PipelineEnv) (gray : Raster) : Except String EmotionResponse :=
  let faces := env.detect gray ⟨11/10, 5, (30, 30)⟩
  match faces with
  | f :: _ =>
    let face_roi := cropRegion gray f
    let resized := env.resize face_roi 48 48
    let face_input := preprocess_input (expandDimsLast (expandDims0 (ndOfGray resized))) true
    classifyStep (env.predict face_input)
  | [] =>
    let face_input := preprocess_input (expandDimsLast (expandDims0 (ndOfGray (env.resize gray 48 48)))) true
    classifyStep (env.predict face_input)

/-- The post-grayscale body of the `/api/analyze-image` handler
(app.py lines 177-224), translated independently of `detectEmotionCore`
because the Python is a literal duplicate: same detector arguments, same
`faces[0]` crop, 48×48 resize, `expand_dims`, `preprocess_input` default,
arg-max and `zip(EMOTIONS, scores)` dict, with the adapter step written
out inline. -/
def analyzeImageCore (env : PipelineEnv) (gray : Raster) : Except String EmotionResponse :=
  match env.detect gray ⟨11/10, 5, (30, 30)⟩ with
  | f :: _ =>
    let face_roi := cropRegion gray f
    let resized := env.resize face_roi 48 48
    let face_input := preprocess_input (expandDimsLast (expandDims0 (ndOfGray resized))) true
    let scores := env.predict face_input
    match npArgmax scores with
    | none => Except.error "attempt to get argmax of an empty sequence"
    | some max_index =>
      match EMOTIONS.get? max_index with
      | none => Except.error "list index out of range"
      | some dominant_emotion => Except.ok ⟨dominant_emotion, EMOTIONS.zip scores⟩
  | [] =>
    let face_input := preprocess_input (expandDimsLast (expandDims0 (ndOfGray (env.resize gray 48 48)))) true
    let scores := env.predict face_input
    match npArgmax scores with
    | none => Except.error "attempt to get argmax of an empty sequence"
    | some max_index =>
      match EMOTIONS.get? max_index with
      | none => Except.error "list index out of range"
      | some dominant_emotion => Except.ok ⟨dominant_emotion, EMOTIONS.zip scores⟩

/-- The region of interest actually resized by the pipeline: the crop of
the first detected face when the detector returns any, otherwise the whole
frame. -/
def resizedRoi (env : PipelineEnv) (gray : Raster) : Raster :=
  match env.detect gray ⟨11/10, 5, (30, 30)⟩ with
  | f :: _ => env.resize (cropRegion gray f) 48 48
  | [] => env.resize gray 48 48

/-- The tensor handed to the classifier by either handler. -/
def pipelineInput (env : PipelineEnv) (gray : Raster) : NDArray :=
  preprocess_input (expandDimsLast (expandDims0 (ndOfGray (resizedRoi env gray)))) true

/-- Result of one HTTP handler call: a 200 JSON success payload, or an
error payload `{'error': msg}` with its HTTP status code. -/
inductive HandlerResult where
  | ok (resp : EmotionResponse)
  | err (status : ℕ) (msg : String)
deriving DecidableEq

/-- `re.sub('^data:image/.+;base64,', '', base64_image)` (app.py line 89):
a greedy `.+` makes the match extend to the LAST `";base64,"` marker, and
requires at least one character between `"data:image/"` and that marker;
when the anchor pattern does not match, the string is left unchanged.
(The regex dot not matching a newline is not modelled; no claim depends
on it.) -/
def stripDataUrl (s : String) : String :=
  let parts := s.splitOn ";base64,"
  if parts.length ≥ 2 then
    let pre := String.intercalate ";base64," parts.dropLast
    if pre.startsWith "data:image/" && pre.length > 11 then parts.getLastD s
    else s
  else s

/-- The remaining external collaborators of the HTTP boundary:
`base64.b64decode` (raises on invalid base64, modelled as `Except` with
the exception text), `cv2.imdecode` (returns `None` — `none` — on bytes
that are not a valid image), `cv2.cvtColor(frame, COLOR_BGR2GRAY)`, and
the text of the exception `cvtColor` raises when handed the `None` frame
left by a failed decode. -/
structure ServerEnv where
  pipe : PipelineEnv
  b64decode : String → Except String (List ℕ)
  imdecode : List ℕ → Option ColorRaster
  cvtGray : ColorRaster → Raster
  cvtColorEmptyMsg : String

/-- The `/api/detect-emotion` handler (app.py lines 75-151), after models
are loaded, on the `image` field of the request body (`none` when the
field or body is missing).  Every exception raised inside the `try` block
(base64 error, the `cvtColor` error on a failed decode, an `IndexError`
from `EMOTIONS[max_index]`) is caught by the `except` at lines 149-151 and
becomes `jsonify({'error': str(e)}), 500`; a missing image field returns
400 before the pipeline runs.  The handler is a total function: there is
no uncaught path. -/
def detect_emotion (env : ServerEnv) (imageField : Option String) : HandlerResult :=
  match imageField with
  | none => HandlerResult.err 400 "No image data provided"
  | some base64_image =>
    let base64_data := stripDataUrl base64_image
    match env.b64decode base64_data with
    | Except.error e => HandlerResult.err 500 e
    | Except.ok image_bytes =>
      match env.imdecode image_bytes with
      | none => HandlerResult.err 500 env.cvtColorEmptyMsg
      | some frame =>
        let gray := env.cvtGray frame
        match detectEmotionCore env.pipe gray with
        | Except.ok resp => HandlerResult.ok resp
        | Except.error e => HandlerResult.err 500 e

/-- One catalog row.  Modelled from the spec: the movie catalog and the
recommendation engine are not present under `src/` (only the emotion
backend `app.py` is); §3 "MovieRecord" and §4.5 describe a row with a
genre string, optional `popularity` / `vote_average` ranking fields and
further descriptive fields already stringified. -/
structure MovieRecord where
  title : String
  genres : String
  popularity : Option ℚ
  vote_average : Option ℚ
  extra : List (String × String)
deriving DecidableEq

/-- Python `str.lower()` on the character list of a string (charwise
lowercase; kernel-reducible, unlike `String.toLower`). -/
def lowerStr (s : String) : String := ⟨s.data.map Char.toLower⟩

/-- Case-insensitive substring containment on character lists. -/
def containsSub (needle hay : List Char) : Bool :=
  (List.range (hay.length + 1)).any (fun i => needle.isPrefixOf (hay.drop i))

/-- A record's genre string matches when ANY configured keyword occurs as
a case-insensitive substring of it (spec §4.5 step 3). -/
def genreMatches (keywords : List String) (genres : String) : Bool :=
  keywords.any (fun k => containsSub (lowerStr k).toList (lowerStr genres).toList)

/-- Modelled from the spec (§4.5 step 2): the EmotionGenreMap lookup for a
label, defaulting to `["drama"]` when the label has no entry.  The map
itself is a parameter: its concrete keyword lists live in the missing
recommendation module. -/
def keywordsFor (genreMap : List (String × List String)) (label : String) : List String :=
  match genreMap.lookup (lowerStr label) with
  | some ks => ks
  | none => ["drama"]

/-- Modelled from the spec (§4.5): `recommend(emotionLabel, limit)` —
validate the label case-insensitively against the fixed 7-label set
(`InvalidEmotionError` otherwise), look up the genre keywords, keep the
catalog rows whose genre string contains any keyword case-insensitively,
rank by descending `popularity` when that column is present, else by
descending `vote_average` when present, else keep catalog order (stable
sort), and truncate to `limit`. -/
def recommend (genreMap : List (String × List String)) (catalog : List MovieRecord)
    (label : String) (limit : ℕ) : Except String (List MovieRecord) :=
  if (EMOTIONS.map lowerStr).contains (lowerStr label) then
    let ks := keywordsFor genreMap label
    let hits := catalog.filter (fun r => genreMatches ks r.genres)
    let ranked :=
      if hits.any (fun r => r.popularity.isSome) then
        List.insertionSort (fun a b => b.popularity.getD 0 ≤ a.popularity.getD 0) hits
      else if hits.any (fun r => r.vote_average.isSome) then
        List.insertionSort (fun a b => b.vote_average.getD 0 ≤ a.vote_average.getD 0) hits
      else hits
    Except.ok (ranked.take limit)
  else Except.error "InvalidEmotionError"

/-- Decidable phrasing of "`i` is the first index achieving the maximum
of `v`": `i` is in range, no entry exceeds `v[i]`, and every earlier entry
is strictly below `v[i]`. -/
def isFirstMaxIdx (v : List ℚ) (i : ℕ) : Bool :=
  decide (i < v.length) &&
    (List.range v.length).all (fun j => decide (v.getD j 0 ≤ v.getD i 0)) &&
    (List.range i).all (fun j => decide (v.getD j 0 < v.getD i 0))

/-- The raster is exactly 48 rows of 48 columns. -/
def isSize48 (g : Raster) : Bool :=
  g.length == 48 && g.all (fun row => row.length == 48)

/-- Whether a pipeline result is a success payload (no caught exception). -/
def exceptOk : Except String EmotionResponse → Bool
  | Except.ok _ => true
  | Except.error _ => false

/-! ### Concrete fixtures used by witnesses and counterexamples -/

/-- A 1×1 grayscale frame. -/
def grayTiny : Raster := [[0]]

/-- A pipeline environment whose model outputs a LENGTH-3 vector
`[1, 3, 2]`: the detector finds no face and the resize collaborator
returns a 1×1 raster. -/
def envShort : PipelineEnv :=
  ⟨fun _ _ => [], fun _ _ _ => [[0]], fun _ => [1, 3, 2]⟩

/-- A pipeline environment whose model outputs the well-formed length-7
vector `[0, 0, 0, 9, 0, 0, 1]` (maximum at the `Happy` index, one raw
score equal to 0 kept in the distribution). -/
def envSeven : PipelineEnv :=
  ⟨fun _ _ => [], fun _ _ _ => [[0]], fun _ => [0, 0, 0, 9, 0, 0, 1]⟩

/-- The response `envSeven` produces: dominant `Happy`, all 7 keys. -/
def respSeven : EmotionResponse :=
  ⟨"Happy", [("Angry", 0), ("Disgust", 0), ("Fear", 0), ("Happy", 9),
    ("Sad", 0), ("Surprise", 0), ("Neutral", 1)]⟩

/-- A length-7 score vector with a tie for the maximum at indices 1, 2. -/
def vTie : List ℚ := [0, 1, 1, 0, 0, 0, 0]

/-- The response for `vTie`: the FIRST maximal index 1, label `Disgust`. -/
def respTie : EmotionResponse := ⟨"Disgust", EMOTIONS.zip vTie⟩

/-- A concrete face rectangle. -/
def faceA : FaceRegion := ⟨1, 2, 3, 4⟩

/-- A pipeline environment whose detector reports exactly one face. -/
def envFace : PipelineEnv :=
  ⟨fun _ _ => [faceA], fun _ _ _ => [[0]], fun _ => [0, 0, 0, 9, 0, 0, 1]⟩

/-- A honest 48×48 frame of zeros. -/
def gray48 : Raster := List.replicate 48 (List.replicate 48 0)

/-- A pipeline environment whose resize collaborator really produces a
48×48 raster. -/
def envFull : PipelineEnv :=
  ⟨fun _ _ => [], fun _ _ _ => gray48, fun _ => [0, 0, 0, 9, 0, 0, 1]⟩

/-- A small concrete ndarray. -/
def ndW : NDArray := ⟨[2], [0, 255]⟩

/-- An HTTP-boundary environment whose image decoder rejects the bytes
(`cv2.imdecode` returns `None`), with the (non-empty) OpenCV exception
text raised by the subsequent `cvtColor` call. -/
def envSrv : ServerEnv :=
  ⟨envSeven, fun _ => Except.ok [1, 2, 3], fun _ => none, fun _ => [[0]],
    "OpenCV cvtColor assertion failed: the source image is empty"⟩

/-- A genre map holding the `happy` keywords the spec's §8 example uses. -/
def gmW : List (String × List String) :=
  [("happy", ["comedy", "animation", "adventure"])]

/-- A catalog row matching the `happy` keywords. -/
def movieA : MovieRecord :=
  ⟨"Toy Story", "Animation, Comedy, Family", some 81, some 8, []⟩

/-- A catalog row matching none of the `happy` keywords. -/
def movieB : MovieRecord :=
  ⟨"The Ring", "Horror, Mystery", some 60, some 7, []⟩

/-- A two-film catalog. -/
def catalogW : List MovieRecord := [movieA, movieB]

theorem detectEmotionCore_eq_classify (env : PipelineEnv) (gray : Raster) :
    detectEmotionCore env gray = classifyStep (env.predict (pipelineInput env gray)) := by
  unfold detectEmotionCore pipelineInput resizedRoi
  cases env.detect gray ⟨11/10, 5, (30, 30)⟩ <;> rfl

theorem argmaxAux_spec (l : List ℚ) : ∀ a : ℚ,
    (argmaxAux a l).1 < (a :: l).length ∧
    (a :: l).getD (argmaxAux a l).1 0 = (argmaxAux a l).2 ∧
    (∀ j, j < (a :: l).length → (a :: l).getD j 0 ≤ (argmaxAux a l).2) ∧
    (∀ j, j < (argmaxAux a l).1 → (a :: l).getD j 0 < (argmaxAux a l).2) := by
  induction l with
  | nil =>
    intro a
    refine ⟨by simp [argmaxAux], by simp [argmaxAux], ?_, ?_⟩
    · intro j hj
      obtain rfl : j = 0 := Nat.lt_one_iff.mp (by simpa using hj)
      simp [argmaxAux]
    · intro j hj
      simp [argmaxAux] at hj
  | cons b rest ih =>
    intro a
    obtain ⟨h1, h2, h3, h4⟩ := ih b
    have hdef : argmaxAux a (b :: rest) =
        if a < (argmaxAux b rest).2
        then ((argmaxAux b rest).1 + 1, (argmaxAux b rest).2)
        else (0, a) := rfl
    by_cases hc : a < (argmaxAux b rest).2
    · rw [hdef, if_pos hc]
      refine ⟨?_, ?_, ?_, ?_⟩
      · simpa using Nat.succ_lt_succ h1
      · simpa using h2
      · intro j hj
        cases j with
        | zero => simpa using le_of_lt hc
        | succ k =>
          rw [List.getD_cons_succ]
          exact h3 k (by simpa using Nat.lt_of_succ_lt_succ hj)
      · intro j hj
        cases j with
        | zero => simpa using hc
        | succ k =>
          rw [List.getD_cons_succ]
          exact h4 k (by simpa using Nat.lt_of_succ_lt_succ hj)
    · rw [hdef, if_neg hc]
      push_neg at hc
      refine ⟨by simp, by simp, ?_, ?_⟩
      · intro j hj
        cases j with
        | zero => simp
        | succ k =>
          rw [List.getD_cons_succ]
          exact le_trans (h3 k (by simpa using Nat.lt_of_succ_lt_succ hj)) hc
      · intro j hj
        simp at hj

theorem npArgmax_isFirstMax (v : List ℚ) (i : ℕ) (h : npArgmax v = some i) :
    isFirstMaxIdx v i = true := by
  cases v with
  | nil => simp [npArgmax] at h
  | cons a l =>
    simp only [npArgmax, Option.some.injEq] at h
    obtain ⟨h1, h2, h3, h4⟩ := argmaxAux_spec l a
    subst h
    simp only [isFirstMaxIdx, Bool.and_eq_true, List.all_eq_true, List.mem_range,
      decide_eq_true_eq]
    refine ⟨⟨h1, ?_⟩, ?_⟩
    · intro j hj
      rw [h2]
      exact h3 j hj
    · intro j hj
      rw [h2]
      exact h4 j hj

theorem npArgmax_lt_length (v : List ℚ) (i : ℕ) (h : npArgmax v = some i) :
    i < v.length := by
  cases v with
  | nil => simp [npArgmax] at h
  | cons a l =>
    simp only [npArgmax, Option.some.injEq] at h
    subst h
    exact (argmaxAux_spec l a).1

theorem EMOTIONS_getD_of_get? (i : ℕ) (lab : String) (h : EMOTIONS.get? i = some lab) :
    EMOTIONS.getD i "" = lab := by
  have hi : i < 7 := by
    by_contra hc
    push_neg at hc
    rw [List.get?_eq_none.mpr (by simpa [EMOTIONS] using hc)] at h
    exact Option.noConfusion h
  interval_cases i <;> simp_all [EMOTIONS]

theorem classifyStep_ok_of (v : List ℚ) (i : ℕ) (h : npArgmax v = some i) (hi : i < 7) :
    classifyStep v = Except.ok ⟨EMOTIONS.getD i "", EMOTIONS.zip v⟩ := by
  have hg : EMOTIONS.get? i = some (EMOTIONS.getD i "") := by
    interval_cases i <;> rfl
  simp only [classifyStep, h, hg]

theorem classifyStep_ok_inv (v : List ℚ) (resp : EmotionResponse)
    (hok : classifyStep v = Except.ok resp) :
    ∀ i, npArgmax v = some i →
      i < 7 ∧ resp = ⟨EMOTIONS.getD i "", EMOTIONS.zip v⟩ := by
  intro i hi
  have hi7 : i < 7 := by
    by_contra hc
    push_neg at hc
    have hg : EMOTIONS.get? i = none :=
      List.get?_eq_none.mpr (by simpa [EMOTIONS] using hc)
    simp only [classifyStep, hi, hg] at hok
    exact Except.noConfusion hok
  refine ⟨hi7, ?_⟩
  have := classifyStep_ok_of v i hi hi7
  rw [this] at hok
  exact (Except.ok.inj hok).symm

/-! ### Claims -/

/-- C1, counterexample: the claim says that for every model output vector
whose length is not 7 the classify step raises an error instead of
returning a labeled distribution.  The code has no length assertion: with
a length-3 model output the pipeline SUCCEEDS, returning a silently
truncated 3-key distribution (Python `zip` stops at the shorter list). -/
theorem claim_C1_counterexample :
    (envShort.predict (pipelineInput envShort grayTiny)).length = 3 ∧
    detectEmotionCore envShort grayTiny =
      Except.ok ⟨"Disgust", [("Angry", 1), ("Disgust", 3), ("Fear", 2)]⟩ := by
  exact ⟨rfl, rfl⟩

/-- C1, amended: the adapter applies no length assertion.  For every
model output vector whose first-maximum index is below 7 (in particular
every nonempty vector shorter than 7), the classify step returns a
labeled distribution zipping the 7 labels with the vector — silently
truncated to `min 7 length` entries when the length mismatches — and an
error occurs only when the vector is empty or its first-maximum index is
at least 7 (the `EMOTIONS[max_index]` `IndexError`). -/
theorem claim_C1_amended (v : List ℚ) (i : ℕ)
    (h : npArgmax v = some i) (hi : i < 7) :
    classifyStep v = Except.ok ⟨EMOTIONS.getD i "", EMOTIONS.zip v⟩ ∧
    (EMOTIONS.zip v).length = min 7 v.length := by
  refine ⟨classifyStep_ok_of v i h hi, ?_⟩
  simp [EMOTIONS]

/-- Witness for C1 (amended) at the concrete length-3 vector. -/
theorem claim_C1_amended_witness :
    npArgmax [(1 : ℚ), 3, 2] = some 1 ∧ (1 : ℕ) < 7 ∧
    classifyStep [(1 : ℚ), 3, 2] =
      Except.ok ⟨EMOTIONS.getD 1 "", EMOTIONS.zip [(1 : ℚ), 3, 2]⟩ ∧
    (EMOTIONS.zip [(1 : ℚ), 3, 2]).length = min 7 [(1 : ℚ), 3, 2].length := by
  exact ⟨rfl, by decide,
    (claim_C1_amended [(1 : ℚ), 3, 2] 1 rfl (by decide)).1,
    (claim_C1_amended [(1 : ℚ), 3, 2] 1 rfl (by decide)).2⟩

/-- C2: when the model output handed to the classify step has length 7
(the classifier capability's contract), every successful response carries
exactly the fixed 7 labels as keys, in order, each with its plain score —
all 7 present even when a raw score is 0 (the zip keeps 0 entries). -/
theorem claim_C2_seven_labels (env : PipelineEnv) (gray : Raster) (resp : EmotionResponse)
    (hlen : (env.predict (pipelineInput env gray)).length = 7)
    (hok : detectEmotionCore env gray = Except.ok resp) :
    resp.emotions.map Prod.fst = EMOTIONS ∧ resp.emotions.length = 7 := by
  rw [detectEmotionCore_eq_classify] at hok
  cases hnp : npArgmax (env.predict (pipelineInput env gray)) with
  | none => simp only [classifyStep, hnp] at hok; exact Except.noConfusion hok
  | some i =>
    obtain ⟨-, hresp⟩ := classifyStep_ok_inv _ resp hok i hnp
    subst hresp
    constructor
    · exact List.map_fst_zip EMOTIONS _ (by simp [EMOTIONS, hlen])
    · simp [EMOTIONS, hlen]

/-- Witness for C2 at a concrete length-7 model output. -/
theorem claim_C2_witness :
    (envSeven.predict (pipelineInput envSeven grayTiny)).length = 7 ∧
    detectEmotionCore envSeven grayTiny = Except.ok respSeven ∧
    respSeven.emotions.map Prod.fst = EMOTIONS ∧ respSeven.emotions.length = 7 := by
  exact ⟨rfl, rfl, claim_C2_seven_labels envSeven grayTiny respSeven rfl rfl⟩

/-- C6: the dominant emotion returned by the classify step is the label at
the FIRST index achieving the maximum score: the arg-max index is in
range, no score exceeds the score at that index, every strictly earlier
score is strictly smaller, and the dominant label is the label list entry
at that index — a deterministic first-max tie-break. -/
theorem claim_C6_first_max_tiebreak (v : List ℚ) (resp : EmotionResponse) (i : ℕ)
    (hok : classifyStep v = Except.ok resp) (hi : npArgmax v = some i) :
    isFirstMaxIdx v i = true ∧ resp.dominantEmotion = EMOTIONS.getD i "" := by
  refine ⟨npArgmax_isFirstMax v i hi, ?_⟩
  obtain ⟨-, hresp⟩ := classifyStep_ok_inv v resp hok i hi
  rw [hresp]

/-- Witness for C6 at a concrete tied vector: indices 1 and 2 share the
maximum and the dominant label is the index-1 label `Disgust`. -/
theorem claim_C6_witness :
    classifyStep vTie = Except.ok respTie ∧ npArgmax vTie = some 1 ∧
    isFirstMaxIdx vTie 1 = true ∧ respTie.dominantEmotion = EMOTIONS.getD 1 "" := by
  exact ⟨rfl, rfl, claim_C6_first_max_tiebreak vTie respTie 1 rfl rfl⟩

theorem preprocess_simple_data (x : NDArray) :
    (preprocess_input x false).data = x.data.map (fun p => p / 255) := by
  simp [preprocess_input]

theorem preprocess_centered_data (x : NDArray) :
    (preprocess_input x true).data = x.data.map (fun p => (p / 255 - 1/2) * 2) := by
  simp only [preprocess_input, List.map_map, if_true]
  rfl

theorem ndOfGray_shape48 (g : Raster) (h : isSize48 g = true) :
    (ndOfGray g).shape = [48, 48] := by
  simp only [isSize48, Bool.and_eq_true, beq_iff_eq, List.all_eq_true] at h
  obtain ⟨hlen, hrows⟩ := h
  cases g with
  | nil => simp at hlen
  | cons row rest =>
    simp only [ndOfGray, List.headD, List.cons.injEq]
    exact ⟨hlen, hrows row (List.mem_cons_self row rest), trivial⟩

theorem classifyStep_isOk_of_length7 (v : List ℚ) (h7 : v.length = 7) :
    exceptOk (classifyStep v) = true := by
  cases hv : npArgmax v with
  | none =>
    cases v with
    | nil => simp at h7
    | cons a l => simp [npArgmax] at hv
  | some i =>
    have hlt : i < 7 := h7 ▸ npArgmax_lt_length v i hv
    rw [classifyStep_ok_of v i hv hlt]
    rfl

/-- C4: when the detector reports at least one face region, the pipeline
crops region 0 from the grayscale raster, resizes the crop to 48×48, and
classifies the tensor obtained by the CENTERED normalization — the
elementwise map `(p/255 - 1/2) * 2`, i.e. `preprocess_input` with its
`v2=True` default, not the simple divide-by-255 variant. -/
theorem claim_C4_face_path_centered (env : PipelineEnv) (gray : Raster)
    (f : FaceRegion) (fs : List FaceRegion)
    (hdet : env.detect gray ⟨11/10, 5, (30, 30)⟩ = f :: fs) :
    detectEmotionCore env gray =
      classifyStep (env.predict (preprocess_input (expandDimsLast (expandDims0 (ndOfGray
        (env.resize (cropRegion gray f) 48 48)))) true)) ∧
    (preprocess_input (expandDimsLast (expandDims0 (ndOfGray
        (env.resize (cropRegion gray f) 48 48)))) true).data =
      (expandDimsLast (expandDims0 (ndOfGray
        (env.resize (cropRegion gray f) 48 48)))).data.map
        (fun p => (p / 255 - 1/2) * 2) := by
  constructor
  · unfold detectEmotionCore
    rw [hdet]
  · exact preprocess_centered_data _

/-- Witness for C4 with a detector reporting the single region
`(1, 2, 3, 4)`. -/
theorem claim_C4_witness :
    envFace.detect grayTiny ⟨11/10, 5, (30, 30)⟩ = faceA :: [] ∧
    (detectEmotionCore envFace grayTiny =
      classifyStep (envFace.predict (preprocess_input (expandDimsLast (expandDims0 (ndOfGray
        (envFace.resize (cropRegion grayTiny faceA) 48 48)))) true)) ∧
    (preprocess_input (expandDimsLast (expandDims0 (ndOfGray
        (envFace.resize (cropRegion grayTiny faceA) 48 48)))) true).data =
      (expandDimsLast (expandDims0 (ndOfGray
        (envFace.resize (cropRegion grayTiny faceA) 48 48)))).data.map
        (fun p => (p / 255 - 1/2) * 2)) := by
  exact ⟨rfl, claim_C4_face_path_centered envFace grayTiny faceA [] rfl⟩

/-- C5: when the detector reports zero face regions, the pipeline does not
fail: it normalizes the ENTIRE grayscale raster with the same centered
mode and classifies it — the same classify path as the with-face case,
so the response has the identical `{dominantEmotion, emotions}` shape —
and whenever the model returns its contractual length-7 vector the
fallback request succeeds. -/
theorem claim_C5_noface_fallback (env : PipelineEnv) (gray : Raster)
    (hdet : env.detect gray ⟨11/10, 5, (30, 30)⟩ = []) :
    detectEmotionCore env gray =
      classifyStep (env.predict (preprocess_input (expandDimsLast (expandDims0
        (ndOfGray (env.resize gray 48 48)))) true)) ∧
    ((env.predict (preprocess_input (expandDimsLast (expandDims0
        (ndOfGray (env.resize gray 48 48)))) true)).length = 7 →
      exceptOk (detectEmotionCore env gray) = true) := by
  have hmain : detectEmotionCore env gray =
      classifyStep (env.predict (preprocess_input (expandDimsLast (expandDims0
        (ndOfGray (env.resize gray 48 48)))) true)) := by
    unfold detectEmotionCore
    rw [hdet]
  refine ⟨hmain, fun h7 => ?_⟩
  rw [hmain]
  exact classifyStep_isOk_of_length7 _ h7

/-- Witness for C5 with a detector reporting no face. -/
theorem claim_C5_witness :
    envSeven.detect grayTiny ⟨11/10, 5, (30, 30)⟩ = [] ∧
    detectEmotionCore envSeven grayTiny =
      classifyStep (envSeven.predict (preprocess_input (expandDimsLast (expandDims0
        (ndOfGray (envSeven.resize grayTiny 48 48)))) true)) ∧
    exceptOk (detectEmotionCore envSeven grayTiny) = true := by
  exact ⟨rfl, (claim_C5_noface_fallback envSeven grayTiny rfl).1,
    (claim_C5_noface_fallback envSeven grayTiny rfl).2 rfl⟩

/-- C7: the simple normalization mode is the elementwise `p/255`, the
centered (v2) mode is the elementwise `(p/255 - 0.5) * 2`, both supported
as the boolean configuration of the one `preprocess_input` function; and
as long as the resize collaborator honours its 48×48 target, the tensor
handed to the classifier has shape `(1, 48, 48, 1)` (batch axis, 48 rows,
48 columns, channel axis). -/
theorem claim_C7_normalization_modes (x : NDArray) (env : PipelineEnv) (gray : Raster)
    (hsz : isSize48 (resizedRoi env gray) = true) :
    (preprocess_input x false).data = x.data.map (fun p => p / 255) ∧
    (preprocess_input x true).data = x.data.map (fun p => (p / 255 - 1/2) * 2) ∧
    (pipelineInput env gray).shape = [1, 48, 48, 1] := by
  refine ⟨preprocess_simple_data x, preprocess_centered_data x, ?_⟩
  have hshape := ndOfGray_shape48 (resizedRoi env gray) hsz
  simp [pipelineInput, preprocess_input, expandDimsLast, expandDims0, hshape]

/-- Witness for C7 with a resize collaborator that really returns a 48×48
raster. -/
theorem claim_C7_witness :
    isSize48 (resizedRoi envFull grayTiny) = true ∧
    (preprocess_input ndW false).data = ndW.data.map (fun p => p / 255) ∧
    (preprocess_input ndW true).data = ndW.data.map (fun p => (p / 255 - 1/2) * 2) ∧
    (pipelineInput envFull grayTiny).shape = [1, 48, 48, 1] := by
  exact ⟨by decide, claim_C7_normalization_modes ndW envFull grayTiny (by decide)⟩

/-- C9: the face locator is invoked with exactly `scaleFactor=1.1`,
`minNeighbors=5`, `minSize=(30, 30)`; the returned sequence is consumed
without any re-ranking, and whenever it is non-empty its element 0 is the
(only) region cropped and classified — for every detector and model
behaviour. -/
theorem claim_C9_detector_invocation (env : PipelineEnv) (gray : Raster) :
    detectEmotionCore env gray =
      classifyStep (env.predict (preprocess_input (expandDimsLast (expandDims0 (ndOfGray
        (match env.detect gray ⟨11/10, 5, (30, 30)⟩ with
          | f :: _ => env.resize (cropRegion gray f) 48 48
          | [] => env.resize gray 48 48)))) true)) := by
  unfold detectEmotionCore
  cases env.detect gray ⟨11/10, 5, (30, 30)⟩ <;> rfl

/-- C10: the base64-body endpoint and the multipart-upload endpoint run
pointwise-equal post-decode pipelines: for the same grayscale raster and
the same detector/resize/model collaborators they compute identical
`{dominantEmotion, emotions}` results (the two Python bodies are literal
duplicates). -/
theorem claim_C10_handlers_equivalent (env : PipelineEnv) (gray : Raster) :
    detectEmotionCore env gray = analyzeImageCore env gray := by
  unfold detectEmotionCore analyzeImageCore classifyStep
  cases env.detect gray ⟨11/10, 5, (30, 30)⟩ <;> rfl

/-- C8: when the request body bytes are not a valid encoded image
(`cv2.imdecode` yields `None`), the handler surfaces the decode failure as
an HTTP 500 error payload carrying the (non-empty) exception message —
the `cvtColor` error on the `None` frame, caught by the handler's
`except` — and a missing image field is likewise converted to a 400
error payload rather than an uncaught exception; in the embedding the
handler is a total function, every Python exception path being an
explicit error branch. -/
theorem claim_C8_decode_error (env : ServerEnv) (s : String) (bytes : List ℕ)
    (hmsg : env.cvtColorEmptyMsg ≠ "")
    (hb : env.b64decode (stripDataUrl s) = Except.ok bytes)
    (hd : env.imdecode bytes = none) :
    detect_emotion env (some s) = HandlerResult.err 500 env.cvtColorEmptyMsg ∧
    env.cvtColorEmptyMsg ≠ "" ∧
    detect_emotion env none = HandlerResult.err 400 "No image data provided" := by
  refine ⟨?_, hmsg, rfl⟩
  simp only [detect_emotion, hb, hd]

/-- Witness for C8: a concrete boundary environment whose decoder rejects
the bytes `[1, 2, 3]` of the non-image body `"abc"`. -/
theorem claim_C8_witness :
    detect_emotion envSrv (some "abc") = HandlerResult.err 500 envSrv.cvtColorEmptyMsg ∧
    envSrv.cvtColorEmptyMsg ≠ "" ∧
    detect_emotion envSrv none = HandlerResult.err 400 "No image data provided" := by
  exact claim_C8_decode_error envSrv "abc" [1, 2, 3] (by decide) rfl rfl

/-- C3: for every genre map, catalog, label and caller-supplied limit, a
successful `recommend` call returns at most `limit` records, and every
returned record's genre field contains at least one of the keywords
configured for that label as a case-insensitive substring.  (Modelled
from the spec: the recommendation engine is not under `src/`.) -/
theorem claim_C3_recommend_bounded_matching (genreMap : List (String × List String))
    (catalog : List MovieRecord) (label : String) (limit : ℕ) (res : List MovieRecord)
    (hok : recommend genreMap catalog label limit = Except.ok res) :
    res.length ≤ limit ∧
    res.all (fun r => genreMatches (keywordsFor genreMap label) r.genres) = true := by
  simp only [recommend] at hok
  split at hok
  · have hres : res = (if (catalog.filter (fun r =>
        genreMatches (keywordsFor genreMap label) r.genres)).any
          (fun r => r.popularity.isSome) then
        List.insertionSort (fun a b => b.popularity.getD 0 ≤ a.popularity.getD 0)
          (catalog.filter (fun r => genreMatches (keywordsFor genreMap label) r.genres))
      else if (catalog.filter (fun r =>
        genreMatches (keywordsFor genreMap label) r.genres)).any
          (fun r => r.vote_average.isSome) then
        List.insertionSort (fun a b => b.vote_average.getD 0 ≤ a.vote_average.getD 0)
          (catalog.filter (fun r => genreMatches (keywordsFor genreMap label) r.genres))
      else catalog.filter (fun r =>
        genreMatches (keywordsFor genreMap label) r.genres)).take limit :=
      (Except.ok.inj hok).symm
    subst hres
    refine ⟨List.length_take_le limit _, ?_⟩
    rw [List.all_eq_true]
    intro r hr
    have hr1 := List.mem_of_mem_take hr
    have hr2 : r ∈ catalog.filter
        (fun r => genreMatches (keywordsFor genreMap label) r.genres) := by
      split at hr1
      · exact (List.perm_insertionSort _ _).mem_iff.mp hr1
      · split at hr1
        · exact (List.perm_insertionSort _ _).mem_iff.mp hr1
        · exact hr1
    exact of_decide_eq_true (by simpa using (List.mem_filter.mp hr2).2)
  · exact Except.noConfusion hok

/-- Witness for C3: `recommend` over a two-film catalog with the `happy`
genre keywords returns only the comedy/animation record. -/
theorem claim_C3_witness :
    recommend gmW catalogW "Happy" 8 = Except.ok [movieA] ∧
    [movieA].length ≤ 8 ∧
    [movieA].all (fun r => genreMatches (keywordsFor gmW "Happy") r.genres) = true := by
  exact ⟨rfl, claim_C3_recommend_bounded_matching gmW catalogW "Happy" 8 [movieA] rfl⟩

end FaceFilm
